import Mathlib

/-!
Verification of the adaptive blink-detection engine of
`src/python/blink_detector.py` (luminaAi-eye-detection).

Floating-point values of the source are modelled as exact rationals (ℚ);
the module-level mutable globals (`baseline_ear_values`,
`current_baseline_ear`, `blink_in_progress`, `blink_start_time`,
`last_blink_time`, `max_drop_percentage`) are collected in a `BlinkState`
record that is threaded explicitly through `detect_blink_advanced`.

The rational arithmetic of the standard library is marked irreducible,
which blocks `decide` on concrete engine runs; it is restored to
semireducible for this file so the embedding stays executable.
-/

set_option allowUnsafeReducibility true

set_option maxRecDepth 100000

attribute [local semireducible] Rat.add Rat.sub Rat.mul Rat.div Rat.inv

/-! ## Constants (module-level constants of blink_detector.py) -/

/-- Source constant `BLINK_COOLDOWN = 0.3`. -/
def BLINK_COOLDOWN : ℚ := 3/10

/-- Source constant `BLINK_MIN_EAR_DROP = 0.19`. -/
def BLINK_MIN_EAR_DROP : ℚ := 19/100

/-- Source constant `BLINK_MIN_ABSOLUTE_EAR_DROP = 0.03`. -/
def BLINK_MIN_ABSOLUTE_EAR_DROP : ℚ := 3/100

/-- Source constant `BLINK_DURATION_MIN = 0.1`. -/
def BLINK_DURATION_MIN : ℚ := 1/10

/-- Source constant `BLINK_DURATION_MAX = 0.6`. -/
def BLINK_DURATION_MAX : ℚ := 3/5

/-- Source constant `BLINK_RECOVERY_THRESHOLD = 0.7`. -/
def BLINK_RECOVERY_THRESHOLD : ℚ := 7/10

/-- Source constant `BASELINE_WINDOW_SIZE = 15` (deque maxlen). -/
def BASELINE_WINDOW_SIZE : ℕ := 15

/-- Source global `baseline_smoothing_factor = 0.3` (reset to the same
value by `reset_blink_detection`, so modelled as a constant). -/
def baseline_smoothing_factor : ℚ := 3/10

/-! ## Threshold model (`get_adaptive_ear_drop_threshold`) -/

/-- Direct translation of `get_adaptive_ear_drop_threshold` from
blink_detector.py lines 27-49. -/
def get_adaptive_ear_drop_threshold (baseline_ear : ℚ) : ℚ :=
  if baseline_ear ≤ 0 then BLINK_MIN_EAR_DROP
  else
    let min_ear : ℚ := 15/100
    let max_ear : ℚ := 35/100
    let max_threshold : ℚ := 20/100
    let min_threshold : ℚ := 15/100
    let clamped_ear := max min_ear (min baseline_ear max_ear)
    let slope := (max_threshold - min_threshold) / (max_ear - min_ear)
    max_threshold - slope * (clamped_ear - min_ear)

/-! ## Baseline tracker (`calculate_baseline_ear`) -/

/-- `np.linspace a b n`: `n` evenly spaced rationals from `a` to `b`
inclusive (step `(b - a) / (n - 1)`); for `n = 1` the single point `a`. -/
def linspace (a b : ℚ) (n : ℕ) : List ℚ :=
  (List.range n).map (fun i => a + (b - a) * i / ((n : ℚ) - 1))

/-- The weighted average computed by `calculate_baseline_ear`:
weights `np.linspace(0.5, 1.0, len)`, normalized by the total weight. -/
def freshWeightedAverage (ear_values : List ℚ) : ℚ :=
  let weights := linspace (1/2) 1 ear_values.length
  (List.zipWith (· * ·) ear_values weights).sum / weights.sum

/-- Direct translation of `calculate_baseline_ear` (lines 124-133):
`None` for fewer than 5 samples, otherwise the linspace-weighted average. -/
def calculate_baseline_ear (ear_values : List ℚ) : Option ℚ :=
  if ear_values.length < 5 then none
  else some (freshWeightedAverage ear_values)

/-! ## Detection state and events -/

/-- The module-level detection state of blink_detector.py (lines 66-72). -/
structure BlinkState where
  baseline_ear_values : List ℚ
  current_baseline_ear : ℚ
  blink_in_progress : Bool
  blink_start_time : ℚ
  last_blink_time : ℚ
  max_drop_percentage : ℚ
deriving DecidableEq

/-- The initial module state (globals at import time). -/
def initialBlinkState : BlinkState :=
  { baseline_ear_values := []
    current_baseline_ear := 0
    blink_in_progress := false
    blink_start_time := 0
    last_blink_time := 0
    max_drop_percentage := 0 }

/-- `deque(maxlen=15).append`: append on the right, evicting from the
left when capacity is exceeded. -/
def pushWindow (w : List ℚ) (x : ℚ) : List ℚ :=
  let w' := w ++ [x]
  w'.drop (w'.length - BASELINE_WINDOW_SIZE)

/-- The baseline update of `detect_blink_advanced` lines 141-148,
including the Python truthiness test `if new_baseline:` (false both for
`None` and for an exact `0.0` weighted average). -/
def nextBaseline (s : BlinkState) (w : List ℚ) : ℚ :=
  match calculate_baseline_ear w with
  | none => s.current_baseline_ear
  | some nb =>
    if nb = 0 then s.current_baseline_ear
    else if 0 < s.current_baseline_ear then
      baseline_smoothing_factor * nb + (1 - baseline_smoothing_factor) * s.current_baseline_ear
    else nb

/-- The diagnostic payload dict returned by `detect_blink_advanced`,
as a tagged variant over the three dict shapes occurring in the source. -/
inductive BlinkInfo where
  | start (baseline drop threshold : ℚ)
  | monitoring (baseline drop threshold : ℚ)
  | complete (baseline drop max_drop_ear duration threshold : ℚ)
deriving DecidableEq

/-- Direct translation of `detect_blink_advanced` (lines 135-203).
Returns the `(bool, info)` pair of the source together with the updated
module state. -/
def detect_blink_advanced (current_ear current_time : ℚ) (s : BlinkState) :
    (Bool × Option BlinkInfo) × BlinkState :=
  let w := pushWindow s.baseline_ear_values current_ear
  if w.length < 5 then ((false, none), { s with baseline_ear_values := w })
  else
    let b := nextBaseline s w
    let s1 : BlinkState := { s with baseline_ear_values := w, current_baseline_ear := b }
    if b ≤ 0 then ((false, none), s1)
    else
      let ear_drop_percentage := (b - current_ear) / b
      let ear_drop_absolute := b - current_ear
      let adaptive_threshold := get_adaptive_ear_drop_threshold b
      if s.blink_in_progress = false ∧ adaptive_threshold < ear_drop_percentage ∧
          BLINK_MIN_ABSOLUTE_EAR_DROP < ear_drop_absolute ∧ 0 < ear_drop_percentage then
        ((false, some (BlinkInfo.start b ear_drop_percentage adaptive_threshold)),
          { s1 with blink_in_progress := true, blink_start_time := current_time,
                    max_drop_percentage := ear_drop_percentage })
      else if s.blink_in_progress = true then
        let m := max s.max_drop_percentage ear_drop_percentage
        let blink_duration := current_time - s.blink_start_time
        if b * BLINK_RECOVERY_THRESHOLD < current_ear ∨ BLINK_DURATION_MAX < blink_duration then
          if (BLINK_DURATION_MIN ≤ blink_duration ∧ blink_duration ≤ BLINK_DURATION_MAX) ∧
              adaptive_threshold < m ∧ BLINK_MIN_ABSOLUTE_EAR_DROP < b * m then
            if BLINK_COOLDOWN < current_time - s.last_blink_time then
              ((true, some (BlinkInfo.complete b m (b * (1 - m)) blink_duration adaptive_threshold)),
                { s1 with last_blink_time := current_time, blink_in_progress := false,
                          max_drop_percentage := m })
            else
              ((false, some (BlinkInfo.monitoring b ear_drop_percentage adaptive_threshold)),
                { s1 with blink_in_progress := false, max_drop_percentage := 0 })
          else
            ((false, some (BlinkInfo.monitoring b ear_drop_percentage adaptive_threshold)),
              { s1 with blink_in_progress := false, max_drop_percentage := 0 })
        else
          ((false, some (BlinkInfo.monitoring b ear_drop_percentage adaptive_threshold)),
            { s1 with max_drop_percentage := m })
      else
        ((false, some (BlinkInfo.monitoring b ear_drop_percentage adaptive_threshold)), s1)

/-- Direct translation of `reset_blink_detection` (lines 205-213). -/
def reset_blink_detection (_s : BlinkState) : BlinkState := initialBlinkState

/-! ## Running the engine on an input sequence -/

/-- One call of the engine, keeping only the updated state. -/
def stepState (s : BlinkState) (inp : ℚ × ℚ) : BlinkState :=
  (detect_blink_advanced inp.1 inp.2 s).2

/-- Fold a list of `(openness, time)` samples through the engine. -/
def runState (s : BlinkState) (inputs : List (ℚ × ℚ)) : BlinkState :=
  inputs.foldl stepState s

/-- The per-call results of feeding a list of samples through the engine. -/
def runOutputs (s : BlinkState) : List (ℚ × ℚ) → List (Bool × Option BlinkInfo)
  | [] => []
  | inp :: rest => (detect_blink_advanced inp.1 inp.2 s).1 :: runOutputs (stepState s inp) rest

/-! ## Concrete input sequences used by witnesses and counterexamples -/

/-- Ten constant open-eye samples (openness 0.3) followed by a blink dip
to 0.1 at t = 0.5; after this sequence the engine is mid-blink. -/
def preInputs : List (ℚ × ℚ) :=
  [(3/10, 0), (3/10, 1/20), (3/10, 2/20), (3/10, 3/20), (3/10, 4/20),
   (3/10, 5/20), (3/10, 6/20), (3/10, 7/20), (3/10, 8/20), (3/10, 9/20),
   (1/10, 1/2)]

/-- Recovery samples after the first validated blink, then a second dip
to 0.1 at t = 1.5. -/
def midInputs : List (ℚ × ℚ) :=
  [(3/10, 4/5), (3/10, 9/10), (3/10, 1), (3/10, 11/10), (3/10, 6/5),
   (3/10, 13/10), (3/10, 7/5), (1/10, 3/2)]

/-- Five open-eye samples then fourteen fully-closed (0) samples: after
these 19 calls the baseline estimate is positive while the window is one
append away from being all zeros. -/
def inputsC5 : List (ℚ × ℚ) :=
  [(3/10, 0), (3/10, 1/10), (3/10, 2/10), (3/10, 3/10), (3/10, 4/10),
   (0, 5/10), (0, 6/10), (0, 7/10), (0, 8/10), (0, 9/10),
   (0, 1), (0, 11/10), (0, 12/10), (0, 13/10), (0, 14/10),
   (0, 15/10), (0, 16/10), (0, 17/10), (0, 18/10)]

/-- Four samples of constant zero openness. -/
def fourZeroInputs : List (ℚ × ℚ) := [(0, 0), (0, 1/10), (0, 2/10), (0, 3/10)]

/-- Four samples of constant 0.3 openness. -/
def fourOpenInputs : List (ℚ × ℚ) :=
  [(3/10, 0), (3/10, 1/10), (3/10, 2/10), (3/10, 3/10)]

/-! ## Claim C3: the adaptive threshold formula -/

/-- Claim C3: `get_adaptive_ear_drop_threshold` returns 0.19 for a
non-positive baseline, and otherwise the linear interpolation
`0.20 - ((0.20 - 0.15) / (0.35 - 0.15)) * (clamped - 0.15)` where the
baseline is clamped into [0.15, 0.35]; it is a pure function (modelled as
a Lean function, so it has no side effects). -/
theorem C3_threshold_formula (b : ℚ) :
    get_adaptive_ear_drop_threshold b =
      if b ≤ 0 then 19/100
      else 20/100 - ((20/100 - 15/100) / (35/100 - 15/100)) *
        (max (15/100) (min b (35/100)) - 15/100) := by
  unfold get_adaptive_ear_drop_threshold BLINK_MIN_EAR_DROP
  rfl

/-- Claim C4: on [0.15, 0.35] the adaptive threshold is non-increasing
in the baseline. -/
theorem C4_threshold_antitone (b1 b2 : ℚ) (h1 : 15/100 ≤ b1) (h12 : b1 < b2)
    (h2 : b2 ≤ 35/100) :
    get_adaptive_ear_drop_threshold b2 ≤ get_adaptive_ear_drop_threshold b1 := by
  have hb1 : ¬ b1 ≤ 0 := by linarith
  have hb2 : ¬ b2 ≤ 0 := by linarith
  have hb1' : b1 ≤ 35/100 := le_trans (le_of_lt h12) h2
  have hb2' : 15/100 ≤ b2 := le_trans h1 (le_of_lt h12)
  unfold get_adaptive_ear_drop_threshold
  rw [if_neg hb1, if_neg hb2]
  dsimp only
  rw [min_eq_left hb1', max_eq_right h1, min_eq_left h2, max_eq_right hb2']
  have hs : ((20:ℚ)/100 - 15/100) / (35/100 - 15/100) = 1/4 := by norm_num
  rw [hs]
  linarith

/-- Witness for C4 at the concrete pair (0.20, 0.30). -/
theorem C4_witness :
    ((15:ℚ)/100 ≤ 20/100 ∧ (20:ℚ)/100 < 30/100 ∧ (30:ℚ)/100 ≤ 35/100) ∧
    get_adaptive_ear_drop_threshold (30/100) ≤ get_adaptive_ear_drop_threshold (20/100) :=
  ⟨by norm_num,
   C4_threshold_antitone (20/100) (30/100) (by norm_num) (by norm_num) (by norm_num)⟩

/-- Claim C10: for every rational baseline input the adaptive threshold
lies inside the closed interval [0.15, 0.20]. -/
theorem C10_threshold_bounded (b : ℚ) :
    15/100 ≤ get_adaptive_ear_drop_threshold b ∧
    get_adaptive_ear_drop_threshold b ≤ 20/100 := by
  unfold get_adaptive_ear_drop_threshold BLINK_MIN_EAR_DROP
  split
  · constructor <;> norm_num
  · dsimp only
    have hlo : (15:ℚ)/100 ≤ max (15/100) (min b (35/100)) := le_max_left _ _
    have hhi : max ((15:ℚ)/100) (min b (35/100)) ≤ 35/100 :=
      max_le (by norm_num) (min_le_right _ _)
    have hs : ((20:ℚ)/100 - 15/100) / (35/100 - 15/100) = 1/4 := by norm_num
    rw [hs]
    constructor <;> linarith

/-! ## Bootstrap gating, reset, and the non-positive-baseline guard -/

/-- Appending to the 15-capacity window: length grows by one until the
capacity is reached. -/
theorem length_pushWindow (w : List ℚ) (x : ℚ) :
    (pushWindow w x).length = min (w.length + 1) BASELINE_WINDOW_SIZE := by
  simp [pushWindow, BASELINE_WINDOW_SIZE]
  omega

/-- With fewer than 5 samples after the append, a call only records the
sample and returns `(False, None)`. -/
theorem detect_of_window_short (e t : ℚ) (s : BlinkState)
    (h : (pushWindow s.baseline_ear_values e).length < 5) :
    detect_blink_advanced e t s =
      ((false, none), { s with baseline_ear_values := pushWindow s.baseline_ear_values e }) := by
  simp only [detect_blink_advanced]
  rw [if_pos h]

/-- Running the engine on few enough samples that the window never
reaches 5 entries: every output is `(False, None)` and the baseline
estimate is untouched. -/
theorem run_short (inputs : List (ℚ × ℚ)) :
    ∀ s : BlinkState, s.baseline_ear_values.length + inputs.length < 5 →
      runOutputs s inputs = List.replicate inputs.length (false, none) ∧
      (runState s inputs).current_baseline_ear = s.current_baseline_ear := by
  induction inputs with
  | nil => intro s _; exact ⟨rfl, rfl⟩
  | cons i rest ih =>
    intro s h
    have hlen : (pushWindow s.baseline_ear_values i.1).length < 5 := by
      rw [length_pushWindow]
      simp only [BASELINE_WINDOW_SIZE]
      simp only [List.length_cons] at h
      omega
    have hstep : stepState s i =
        { s with baseline_ear_values := pushWindow s.baseline_ear_values i.1 } := by
      simp [stepState, detect_of_window_short i.1 i.2 s hlen]
    have hrec := ih { s with baseline_ear_values := pushWindow s.baseline_ear_values i.1 }
      (by rw [length_pushWindow]
          simp only [BASELINE_WINDOW_SIZE, List.length_cons] at h ⊢
          omega)
    constructor
    · simp only [runOutputs, hstep, List.length_cons]
      rw [detect_of_window_short i.1 i.2 s hlen, hrec.1]
      rfl
    · show (runState (stepState s i) rest).current_baseline_ear = s.current_baseline_ear
      rw [hstep]
      exact hrec.2

/-- Claim C6: starting from the initial (or freshly reset) state, any
sequence of fewer than 5 samples makes every call return `(False, None)`
and leaves the baseline estimate at zero. -/
theorem C6_bootstrap_gating (inputs : List (ℚ × ℚ)) (h : inputs.length < 5) :
    runOutputs initialBlinkState inputs = List.replicate inputs.length (false, none) ∧
    (runState initialBlinkState inputs).current_baseline_ear = 0 := by
  have hrun := run_short inputs initialBlinkState
    (by simp only [initialBlinkState, List.length_nil]; omega)
  exact ⟨hrun.1, hrun.2⟩

/-- Witness for C6 on a single concrete sample. -/
theorem C6_witness :
    ([((3:ℚ)/10, (0:ℚ))].length < 5) ∧
    runOutputs initialBlinkState [(3/10, 0)] = List.replicate 1 (false, none) ∧
    (runState initialBlinkState [(3/10, 0)]).current_baseline_ear = 0 :=
  ⟨by decide,
   (C6_bootstrap_gating [(3/10, 0)] (by decide)).1,
   (C6_bootstrap_gating [(3/10, 0)] (by decide)).2⟩

/-- Claim C8: `reset_blink_detection` returns the all-cleared Idle state
from any prior state, and any up-to-4 samples fed afterwards all produce
the baseline-not-ready outcome `(False, None)` with the baseline still
zero. -/
theorem C8_reset_clears_state (s : BlinkState) (inputs : List (ℚ × ℚ))
    (h : inputs.length ≤ 4) :
    reset_blink_detection s = initialBlinkState ∧
    (reset_blink_detection s).baseline_ear_values = [] ∧
    (reset_blink_detection s).current_baseline_ear = 0 ∧
    (reset_blink_detection s).blink_in_progress = false ∧
    (reset_blink_detection s).last_blink_time = 0 ∧
    (reset_blink_detection s).max_drop_percentage = 0 ∧
    runOutputs (reset_blink_detection s) inputs =
      List.replicate inputs.length (false, none) := by
  have hrun := run_short inputs initialBlinkState
    (by simp only [initialBlinkState, List.length_nil]; omega)
  exact ⟨rfl, rfl, rfl, rfl, rfl, rfl, hrun.1⟩

/-- Witness for C8: reset of an engine that is mid-InProgress (the state
after `preInputs`, whose last sample started a blink), followed by four
samples. -/
theorem C8_witness :
    (runState initialBlinkState preInputs).blink_in_progress = true ∧
    fourOpenInputs.length ≤ 4 ∧
    reset_blink_detection (runState initialBlinkState preInputs) = initialBlinkState ∧
    runOutputs (reset_blink_detection (runState initialBlinkState preInputs)) fourOpenInputs =
      List.replicate fourOpenInputs.length (false, none) := by
  have h := C8_reset_clears_state (runState initialBlinkState preInputs) fourOpenInputs
    (by decide)
  exact ⟨by decide, by decide, h.1, h.2.2.2.2.2.2⟩

/-- Claim C9: whenever the updated (smoothed) baseline estimate is not
strictly positive, the call returns `(False, None)` without reaching the
relative-drop division, even with 5 or more samples in the window; only
the window and the baseline field of the state are updated. -/
theorem C9_nonpositive_baseline_suppresses (e t : ℚ) (s : BlinkState)
    (hlen : ¬ (pushWindow s.baseline_ear_values e).length < 5)
    (hb : nextBaseline s (pushWindow s.baseline_ear_values e) ≤ 0) :
    detect_blink_advanced e t s =
      ((false, none),
        { s with baseline_ear_values := pushWindow s.baseline_ear_values e,
                 current_baseline_ear := nextBaseline s (pushWindow s.baseline_ear_values e) }) := by
  simp only [detect_blink_advanced]
  rw [if_neg hlen, if_pos hb]

/-- Witness for C9: five samples of constant zero openness (every sample
observed so far is 0) reach the 5-sample mark yet detection stays
suppressed. -/
theorem C9_witness :
    (¬ (pushWindow (runState initialBlinkState fourZeroInputs).baseline_ear_values 0).length < 5) ∧
    nextBaseline (runState initialBlinkState fourZeroInputs)
      (pushWindow (runState initialBlinkState fourZeroInputs).baseline_ear_values 0) ≤ 0 ∧
    detect_blink_advanced 0 (4/10) (runState initialBlinkState fourZeroInputs) =
      ((false, none),
        { runState initialBlinkState fourZeroInputs with
            baseline_ear_values :=
              pushWindow (runState initialBlinkState fourZeroInputs).baseline_ear_values 0,
            current_baseline_ear :=
              nextBaseline (runState initialBlinkState fourZeroInputs)
                (pushWindow (runState initialBlinkState fourZeroInputs).baseline_ear_values 0) }) :=
  ⟨by decide, by decide,
   C9_nonpositive_baseline_suppresses 0 (4/10) (runState initialBlinkState fourZeroInputs)
     (by decide) (by decide)⟩

/-! ## Claim C5: the baseline update rule -/

/-- With at least 5 samples after the append, the baseline estimate
stored in the post-call state is exactly `nextBaseline` (whatever branch
the state machine then takes). -/
theorem detect_baseline_eq (e t : ℚ) (s : BlinkState)
    (h : ¬ (pushWindow s.baseline_ear_values e).length < 5) :
    (detect_blink_advanced e t s).2.current_baseline_ear =
      nextBaseline s (pushWindow s.baseline_ear_values e) := by
  simp only [detect_blink_advanced]
  rw [if_neg h]
  split_ifs <;> rfl

/-- Counterexample to claim C5 as stated: after five open-eye samples
and fifteen zero samples, the 20th call has 15 samples in the window, a
positive prior estimate, and a fresh weighted average of exactly 0 — the
code leaves the estimate unchanged instead of producing
`0.3 * fresh + 0.7 * prior = 0.7 * prior` as the claim requires. -/
theorem C5_counterexample :
    5 ≤ (pushWindow (runState initialBlinkState inputsC5).baseline_ear_values 0).length ∧
    0 < (runState initialBlinkState inputsC5).current_baseline_ear ∧
    freshWeightedAverage
      (pushWindow (runState initialBlinkState inputsC5).baseline_ear_values 0) = 0 ∧
    (stepState (runState initialBlinkState inputsC5) (0, 19/10)).current_baseline_ear ≠
      baseline_smoothing_factor *
        freshWeightedAverage
          (pushWindow (runState initialBlinkState inputsC5).baseline_ear_values 0) +
      (1 - baseline_smoothing_factor) *
        (runState initialBlinkState inputsC5).current_baseline_ear := by
  refine ⟨by decide, by decide, by decide, by decide⟩

/-- Claim C5 as amended: with at least 5 samples in the window the fresh
baseline is the linspace(0.5, 1.0)-weighted average of the window; the
new estimate is `0.3 * fresh + 0.7 * prior` when the prior estimate is
positive and fresh is nonzero, `fresh` when the prior is not positive
and fresh is nonzero, and left unchanged when fresh is exactly zero
(Python truthiness of `0.0` in `if new_baseline:`). -/
theorem C5_baseline_update_amended (e t : ℚ) (s : BlinkState)
    (h : ¬ (pushWindow s.baseline_ear_values e).length < 5) :
    (detect_blink_advanced e t s).2.current_baseline_ear =
      (if freshWeightedAverage (pushWindow s.baseline_ear_values e) = 0 then
        s.current_baseline_ear
      else if 0 < s.current_baseline_ear then
        baseline_smoothing_factor *
          freshWeightedAverage (pushWindow s.baseline_ear_values e) +
        (1 - baseline_smoothing_factor) * s.current_baseline_ear
      else freshWeightedAverage (pushWindow s.baseline_ear_values e)) := by
  rw [detect_baseline_eq e t s h]
  have hc : calculate_baseline_ear (pushWindow s.baseline_ear_values e) =
      some (freshWeightedAverage (pushWindow s.baseline_ear_values e)) := by
    unfold calculate_baseline_ear
    rw [if_neg h]
  unfold nextBaseline
  rw [hc]

/-- Witness for the amended C5 at a concrete call: a fifth sample of 0.3
after `fourOpenInputs`, where the prior estimate is still zero and the
fresh weighted average is 0.3 (bootstrap branch). -/
theorem C5_amended_witness :
    (¬ (pushWindow (runState initialBlinkState fourOpenInputs).baseline_ear_values
        (3/10)).length < 5) ∧
    (detect_blink_advanced (3/10) (4/10) (runState initialBlinkState fourOpenInputs)).2.current_baseline_ear =
      (if freshWeightedAverage
          (pushWindow (runState initialBlinkState fourOpenInputs).baseline_ear_values (3/10)) = 0 then
        (runState initialBlinkState fourOpenInputs).current_baseline_ear
      else if 0 < (runState initialBlinkState fourOpenInputs).current_baseline_ear then
        baseline_smoothing_factor *
          freshWeightedAverage
            (pushWindow (runState initialBlinkState fourOpenInputs).baseline_ear_values (3/10)) +
        (1 - baseline_smoothing_factor) *
          (runState initialBlinkState fourOpenInputs).current_baseline_ear
      else
        freshWeightedAverage
          (pushWindow (runState initialBlinkState fourOpenInputs).baseline_ear_values (3/10))) :=
  ⟨by decide,
   C5_baseline_update_amended (3/10) (4/10) (runState initialBlinkState fourOpenInputs)
     (by decide)⟩

/-! ## Claim C2: no defensive rejection of malformed input -/

/-- Claim C2 (code behaviour at the failing input): feeding the negative
openness value -1 after four valid samples of 0.3 is not rejected — the
sample is appended to the baseline window, the baseline estimate is
silently driven negative, and the call returns the ordinary
`(False, None)` outcome instead of any explicit invalid-input outcome. -/
theorem C2_malformed_input_accepted :
    (detect_blink_advanced (-1) (4/10) (runState initialBlinkState fourOpenInputs)).1 =
      (false, none) ∧
    (detect_blink_advanced (-1) (4/10) (runState initialBlinkState fourOpenInputs)).2.baseline_ear_values =
      [3/10, 3/10, 3/10, 3/10, -1] ∧
    (detect_blink_advanced (-1) (4/10) (runState initialBlinkState fourOpenInputs)).2.current_baseline_ear < 0 := by
  refine ⟨by decide, by decide, by decide⟩

/-! ## Claim C1: terminal validation of an in-progress blink -/

/-- Claim C1: on a call made while a blink is in progress whose terminal
condition fires (openness recovers past `baseline * 0.7`, or the elapsed
time exceeds 0.6s), the call validates a blink iff the elapsed duration
lies in [0.1s, 0.6s], the running maximum relative drop (updated with the
current frame) exceeds the active adaptive threshold, `baseline * max`
exceeds the minimum absolute drop 0.03, and more than the 0.3s cooldown
has passed since the last validated blink; on validation the last-blink
timestamp becomes the current time, the machine returns to Idle, and the
event carries the baseline, the running max, the reconstructed openness
`baseline * (1 - max)` and the elapsed duration. -/
theorem C1_terminal_validation (e t : ℚ) (s : BlinkState) (w : List ℚ) (b m d : ℚ)
    (hw : w = pushWindow s.baseline_ear_values e)
    (hb : b = nextBaseline s w)
    (hm : m = max s.max_drop_percentage ((b - e) / b))
    (hd : d = t - s.blink_start_time)
    (hip : s.blink_in_progress = true)
    (hlen : ¬ w.length < 5)
    (hpos : 0 < b)
    (hterm : b * BLINK_RECOVERY_THRESHOLD < e ∨ BLINK_DURATION_MAX < d) :
    ((detect_blink_advanced e t s).1.1 = true ↔
      ((BLINK_DURATION_MIN ≤ d ∧ d ≤ BLINK_DURATION_MAX) ∧
        get_adaptive_ear_drop_threshold b < m ∧
        BLINK_MIN_ABSOLUTE_EAR_DROP < b * m ∧
        BLINK_COOLDOWN < t - s.last_blink_time)) ∧
    ((detect_blink_advanced e t s).1.1 = true →
      (detect_blink_advanced e t s).2.last_blink_time = t ∧
      (detect_blink_advanced e t s).2.blink_in_progress = false ∧
      (detect_blink_advanced e t s).1.2 =
        some (BlinkInfo.complete b m (b * (1 - m)) d (get_adaptive_ear_drop_threshold b))) := by
  subst hw
  subst hb
  subst hm
  subst hd
  have hip' : ¬ (s.blink_in_progress = false ∧
      get_adaptive_ear_drop_threshold (nextBaseline s (pushWindow s.baseline_ear_values e)) <
        (nextBaseline s (pushWindow s.baseline_ear_values e) - e) /
          nextBaseline s (pushWindow s.baseline_ear_values e) ∧
      BLINK_MIN_ABSOLUTE_EAR_DROP <
        nextBaseline s (pushWindow s.baseline_ear_values e) - e ∧
      0 < (nextBaseline s (pushWindow s.baseline_ear_values e) - e) /
        nextBaseline s (pushWindow s.baseline_ear_values e)) := by
    rw [hip]
    simp
  simp only [detect_blink_advanced]
  rw [if_neg hlen, if_neg (not_le.mpr hpos), if_neg hip', if_pos hip, if_pos hterm]
  split_ifs with hmag hcool
  · exact ⟨⟨fun _ => ⟨hmag.1, hmag.2.1, hmag.2.2, hcool⟩, fun _ => rfl⟩,
      fun _ => ⟨rfl, rfl, rfl⟩⟩
  · exact ⟨⟨fun h => h.elim, fun hc => absurd hc.2.2.2 hcool⟩, fun h => h.elim⟩
  · exact ⟨⟨fun h => h.elim, fun hc => absurd ⟨hc.1, hc.2.1, hc.2.2.1⟩ hmag⟩,
      fun h => h.elim⟩

/-- Witness for C1: the recovery frame (0.29 at t = 0.65) of the blink
started by the last sample of `preInputs` validates, and the validated
call writes the current time into the last-blink timestamp and returns
to Idle. -/
theorem C1_witness :
    (runState initialBlinkState preInputs).blink_in_progress = true ∧
    (detect_blink_advanced (29/100) (13/20) (runState initialBlinkState preInputs)).1.1 = true ∧
    (detect_blink_advanced (29/100) (13/20) (runState initialBlinkState preInputs)).2.last_blink_time = 13/20 ∧
    (detect_blink_advanced (29/100) (13/20) (runState initialBlinkState preInputs)).2.blink_in_progress = false := by
  have h := C1_terminal_validation (29/100) (13/20) (runState initialBlinkState preInputs)
    _ _ _ _ rfl rfl rfl rfl (by decide) (by decide) (by decide) (by decide)
  have hv : (detect_blink_advanced (29/100) (13/20) (runState initialBlinkState preInputs)).1.1 = true :=
    h.1.mpr (by decide)
  exact ⟨by decide, hv, (h.2 hv).1, (h.2 hv).2.1⟩

/-! ## Claim C7: cooldown enforcement -/

/-- A single call never decreases the last-blink timestamp: it is either
untouched (no validation) or raised to the current time, which the
cooldown guard places strictly above the old value. -/
theorem last_blink_time_mono (e t : ℚ) (s : BlinkState) :
    s.last_blink_time ≤ (detect_blink_advanced e t s).2.last_blink_time := by
  simp only [detect_blink_advanced]
  split_ifs with h1 h2 h3 h4 h5 h6 h7 <;> try exact le_refl _
  have h7' : BLINK_COOLDOWN < t - s.last_blink_time := h7
  show s.last_blink_time ≤ t
  have hc : (0:ℚ) < BLINK_COOLDOWN := by norm_num [BLINK_COOLDOWN]
  linarith

/-- A validating call raises the last-blink timestamp to the current
time, and can only fire when more than the cooldown has elapsed since
the previous validated blink. -/
theorem validated_detect (e t : ℚ) (s : BlinkState)
    (h : (detect_blink_advanced e t s).1.1 = true) :
    (detect_blink_advanced e t s).2.last_blink_time = t ∧
    BLINK_COOLDOWN < t - s.last_blink_time := by
  simp only [detect_blink_advanced] at h ⊢
  split_ifs at h ⊢ with h1 h2 h3 h4 h5 h6 h7
  exact ⟨rfl, h7⟩

/-- The last-blink timestamp is monotone along any run. -/
theorem last_blink_time_mono_run (inputs : List (ℚ × ℚ)) :
    ∀ s : BlinkState, s.last_blink_time ≤ (runState s inputs).last_blink_time := by
  induction inputs with
  | nil => intro s; exact le_refl _
  | cons i rest ih =>
    intro s
    exact le_trans (last_blink_time_mono i.1 i.2 s) (ih (stepState s i))

/-- Claim C7: along any run with strictly increasing timestamps, two
calls that both return a validated blink are separated by more than the
0.3s cooldown — the earlier validation stamps its time in the state, the
stamp never decreases, and the later validation requires more than 0.3s
beyond the stamp. -/
theorem C7_cooldown_enforcement (s0 : BlinkState) (pre mid : List (ℚ × ℚ))
    (e1 t1 e2 t2 : ℚ)
    (_hchain : List.Pairwise (fun a b => a.2 < b.2) (pre ++ (e1, t1) :: (mid ++ [(e2, t2)])))
    (h1 : (detect_blink_advanced e1 t1 (runState s0 pre)).1.1 = true)
    (h2 : (detect_blink_advanced e2 t2
        (runState (stepState (runState s0 pre) (e1, t1)) mid)).1.1 = true) :
    BLINK_COOLDOWN < t2 - t1 := by
  have ha : (stepState (runState s0 pre) (e1, t1)).last_blink_time = t1 :=
    (validated_detect e1 t1 (runState s0 pre) h1).1
  have hb := last_blink_time_mono_run mid (stepState (runState s0 pre) (e1, t1))
  rw [ha] at hb
  have hc := (validated_detect e2 t2
    (runState (stepState (runState s0 pre) (e1, t1)) mid) h2).2
  linarith

/-- Witness for C7: the two validated blinks of the
`preInputs`/`midInputs` scenario, at t = 0.65 and t = 1.65. -/
theorem C7_witness :
    List.Pairwise (fun a b : ℚ × ℚ => a.2 < b.2)
      (preInputs ++ ((29:ℚ)/100, (13:ℚ)/20) :: (midInputs ++ [((29:ℚ)/100, (33:ℚ)/20)])) ∧
    (detect_blink_advanced (29/100) (13/20) (runState initialBlinkState preInputs)).1.1 = true ∧
    (detect_blink_advanced (29/100) (33/20)
      (runState (stepState (runState initialBlinkState preInputs) (29/100, 13/20)) midInputs)).1.1 = true ∧
    BLINK_COOLDOWN < (33:ℚ)/20 - 13/20 :=
  ⟨by decide, by decide, by decide,
   C7_cooldown_enforcement initialBlinkState preInputs midInputs (29/100) (13/20)
     (29/100) (33/20) (by decide) (by decide) (by decide)⟩
